import Mathlib

/-! Shallow embedding of the batch pipeline in src/contents_download.py: a
Streamlit script that, on one button press, opens a Google Sheet tab, filters
the data rows whose 진행상태 column equals 미진행, downloads the 링크 column of
exactly those rows with yt-dlp into a fresh timestamped directory, zips the
directory, offers the zip for download, writes 진행완료 back into the status
cell of each processed row, and finally removes the local files.

External collaborators (gspread, yt-dlp, update_cell, the filesystem) are
modelled by oracle fields of an Env record that fix their behaviour for one
run; the control flow of main is translated branch for branch, in source
order. yt-dlp is called once on the whole link list with default options
(ignoreerrors is False), so it processes links sequentially and raises at the
first failing link, leaving the previously downloaded artifacts on disk. -/

namespace ContentsDownload

/-- Exit paths of main in contents_download.py, one constructor per distinct
return or fall-through: empty tab-name warning (line 67), sheet connection
failure (line 75), missing worksheet (line 82), empty get_all_records result
(line 89), missing 링크 or 진행상태 column (line 96), empty 미진행 filter
(line 103), download exception (line 119), an uncaught update_cell exception
(line 146), and the full success path. -/
inductive Outcome where
  | inputWarning
  | connectError
  | tabNotFound
  | noData
  | schemaError
  | nothingToDo
  | downloadError
  | writeError
  | success
  deriving DecidableEq, Repr

/-- Oracle environment for one button press of main: the sheet contents and
the behaviour of every external collaborator during this run. fetchOk says
whether yt-dlp can download a given link, title gives the video title used in
the output template, writeOk says whether update_cell succeeds for a given
data-frame index, cleanupOk says whether the final os.remove calls succeed,
and timestamp is the int(time.time()) value taken at line 107. -/
structure Env where
  sheetTab : String
  connectOk : Bool
  tabOk : Bool
  header : List String
  rows : List (List String)
  fetchOk : String → Bool
  title : String → String
  writeOk : Nat → Bool
  cleanupOk : Bool
  timestamp : Nat

/-- A file inside the download directory as os.walk sees it: the chain of
subdirectories below the walked root, and the base filename (the files list
of os.walk holds base names). -/
structure FolderFile where
  subdirs : List String
  base : String
  deriving DecidableEq, Repr

/-- create_zip_file (lines 48 to 57): walk the folder and store every file
under arcname = its base filename, so each entry is flat regardless of any
directory nesting. -/
def create_zip_file (files : List FolderFile) : List String :=
  files.map (fun f => f.base)

/-- Zero-based position of a column name in the header row, as
header_row.index would find it (line 139); none when the column is absent. -/
def colIdx : List String → String → Option Nat
  | [], _ => none
  | h :: t, c => if h = c then some 0 else (colIdx t c).map (fun j => j + 1)

/-- Value of a named column in one data row, as the get_all_records dict
would hold it: the cell at the position of the column name in the header,
with missing trailing cells read as the empty string. -/
def cellValue (header : List String) (row : List String) (c : String) : String :=
  match colIdx header c with
  | none => ""
  | some j => (row.get? j).getD ""

/-- The 미진행 filter of line 100: data rows paired with their zero-based
pandas index, keeping exactly the rows whose 진행상태 cell equals 미진행.
pandas keeps the original RangeIndex positions, which is what update_cell
later adds 2 to. -/
def pendingPairs (env : Env) : List (Nat × List String) :=
  env.rows.enum.filter (fun p => cellValue env.header p.2 "진행상태" = "미진행")

/-- The data-frame indices of the pending snapshot (df_mijinhaeng.index). -/
def pendingIndices (env : Env) : List Nat :=
  (pendingPairs env).map Prod.fst

/-- The link list handed to yt-dlp (line 112): the 링크 column of the pending
rows, in sheet order. -/
def videoLinks (env : Env) : List String :=
  (pendingPairs env).map (fun p => cellValue env.header p.2 "링크")

/-- Filename produced by the yt-dlp output template of line 37 for one link:
the video title with the mp4 extension after merging. -/
def artifactName (title : String → String) (link : String) : String :=
  title link ++ ".mp4"

/-- download_youtube_videos (lines 31 to 46): one ydl.download call over the
whole link list. With default options yt-dlp processes the links in order and
raises DownloadError at the first failing link; on success it returns the
artifact filenames in order, on failure the artifacts already on disk
together with the failing link. -/
def download_youtube_videos (fetchOk : String → Bool) (title : String → String) :
    List String → Except (List String × String) (List String)
  | [] => Except.ok []
  | l :: ls =>
    if fetchOk l then
      match download_youtube_videos fetchOk title ls with
      | Except.ok arts => Except.ok (artifactName title l :: arts)
      | Except.error e => Except.error (artifactName title l :: e.1, e.2)
    else Except.error ([], l)

/-- The links yt-dlp actually attempts in one run: every link up to and
including the first failing one, or all of them when none fails. -/
def attemptedLinks (fetchOk : String → Bool) : List String → List String
  | [] => []
  | l :: ls => if fetchOk l then l :: attemptedLinks fetchOk ls else [l]

/-- The write-back loop of lines 144 to 146: update_cell per pending
data-frame index, in order, with no try block around it, so an update_cell
exception aborts the loop. Returns the indices actually written and whether
the loop ran to completion. -/
def commitLoop (writeOk : Nat → Bool) : List Nat → List Nat × Bool
  | [] => ([], true)
  | i :: rest =>
    if writeOk i then
      let r := commitLoop writeOk rest
      (i :: r.1, r.2)
    else ([], false)

/-- One update_cell write: set position j of a row to v, padding with empty
cells when the row is shorter than the addressed column. -/
def setAt (row : List String) (j : Nat) (v : String) : List String :=
  row.take j ++ List.replicate (j - row.length) "" ++ [v] ++ row.drop (j + 1)

/-- Final sheet data rows after the committed writes: the status cell of each
written data-frame index becomes 진행완료, every other row is untouched.
update_cell addresses sheet row df index + 2, which is data row df index. -/
def applyWrites (statusCol : Nat) (written : List Nat)
    (rows : List (List String)) : List (List String) :=
  rows.enum.map (fun p => if p.1 ∈ written then setAt p.2 statusCol "진행완료" else p.2)

/-- The pending items whose resource was retrieved without error in this run,
by data-frame index: yt-dlp downloads the pending links sequentially and
raises at the first failure, so these are the pending items strictly before
the first failing link, and all of them when every download succeeds. -/
def succeededIndices (env : Env) : List Nat :=
  ((pendingPairs env).takeWhile
    (fun p => env.fetchOk (cellValue env.header p.2 "링크"))).map Prod.fst

/-- Observable result of one run: the exit path taken, the final sheet data
rows, whether the download directory was created, the links yt-dlp attempted,
whether the zip file was created and its name and entry list, the data-frame
indices whose status cell was written 진행완료, whether the cleanup block of
lines 150 to 157 ran, and whether the local files were actually removed. -/
structure RunResult where
  outcome : Outcome
  finalRows : List (List String)
  dirCreated : Bool
  fetchAttempts : List String
  zipCreated : Bool
  zipName : Option String
  zipEntries : Option (List String)
  cellsWritten : List Nat
  cleanupAttempted : Bool
  localFilesRemoved : Bool
  deriving DecidableEq, Repr

/-- Result of a return taken before the download directory is created: the
sheet is untouched and no local file or archive exists. -/
def earlyReturn (env : Env) (o : Outcome) : RunResult :=
  { outcome := o, finalRows := env.rows, dirCreated := false,
    fetchAttempts := [], zipCreated := false, zipName := none,
    zipEntries := none, cellsWritten := [], cleanupAttempted := false,
    localFilesRemoved := false }

/-- Result of the return at line 121 after a download exception: the
directory was created at line 109 and may hold already downloaded artifacts,
no zip exists, no status cell was written, and the cleanup block is never
reached. -/
def downloadErrorResult (env : Env) : RunResult :=
  { outcome := Outcome.downloadError, finalRows := env.rows,
    dirCreated := true,
    fetchAttempts := attemptedLinks env.fetchOk (videoLinks env),
    zipCreated := false, zipName := none, zipEntries := none,
    cellsWritten := [], cleanupAttempted := false, localFilesRemoved := false }

/-- Steps 4 to 6 of main after a fully successful download (lines 123 to
157): build the zip over the walked directory contents, then run the
write-back loop; if every update_cell succeeds the cleanup block runs inside
its blanket try, otherwise the update_cell exception propagates out of main
and the cleanup block is skipped. -/
def commitPhase (env : Env) (artifacts : List String) : RunResult :=
  let zname := "videos_" ++ toString env.timestamp ++ ".zip"
  let entries := create_zip_file (artifacts.map (fun a => { subdirs := [], base := a }))
  let statusCol := (colIdx env.header "진행상태").getD 0
  let c := commitLoop env.writeOk (pendingIndices env)
  let newRows := applyWrites statusCol c.1 env.rows
  if c.2 then
    { outcome := Outcome.success, finalRows := newRows, dirCreated := true,
      fetchAttempts := attemptedLinks env.fetchOk (videoLinks env),
      zipCreated := true, zipName := some zname, zipEntries := some entries,
      cellsWritten := c.1, cleanupAttempted := true,
      localFilesRemoved := env.cleanupOk }
  else
    { outcome := Outcome.writeError, finalRows := newRows, dirCreated := true,
      fetchAttempts := attemptedLinks env.fetchOk (videoLinks env),
      zipCreated := true, zipName := some zname, zipEntries := some entries,
      cellsWritten := c.1, cleanupAttempted := false,
      localFilesRemoved := false }

/-- Lines 99 to 157 of main, after all sheet-level guards passed: filter the
pending snapshot, stop when it is empty, otherwise create the directory and
call yt-dlp once on the whole link list, aborting on a download exception and
continuing to the zip and write-back phase on success. -/
def runCore (env : Env) : RunResult :=
  if pendingPairs env = [] then earlyReturn env Outcome.nothingToDo
  else
    match download_youtube_videos env.fetchOk env.title (videoLinks env) with
    | Except.error _ => downloadErrorResult env
    | Except.ok artifacts => commitPhase env artifacts

/-- The body of main for one button press (lines 66 to 157), in source
order: empty tab-name check, sheet connection, worksheet lookup, empty
get_all_records check, required-column check, then the core pipeline. -/
def runMain (env : Env) : RunResult :=
  if env.sheetTab = "" then earlyReturn env Outcome.inputWarning
  else if env.connectOk = false then earlyReturn env Outcome.connectError
  else if env.tabOk = false then earlyReturn env Outcome.tabNotFound
  else if env.rows = [] then earlyReturn env Outcome.noData
  else if "링크" ∉ env.header ∨ "진행상태" ∉ env.header then
    earlyReturn env Outcome.schemaError
  else runCore env

/-- A run in which every external call succeeds: two pending rows A and B,
both links downloadable, every update_cell write succeeding. -/
def envAllOk : Env :=
  { sheetTab := "t", connectOk := true, tabOk := true,
    header := ["링크", "진행상태"],
    rows := [["A", "미진행"], ["B", "미진행"]],
    fetchOk := fun _ => true, title := fun l => l,
    writeOk := fun _ => true, cleanupOk := true, timestamp := 5 }

/-- Two pending rows where the first link downloads fine and the second one
fails: the mixed partial-failure run. -/
def envMixed : Env :=
  { envAllOk with fetchOk := fun l => l == "A" }

/-- Two pending rows where the first link fails and the second would have
succeeded: shows that nothing after the first failure is attempted. -/
def envFirstFails : Env :=
  { envAllOk with fetchOk := fun l => l == "B" }

/-- Two pending rows where every download fails: the total-failure run. -/
def envAllFail : Env :=
  { envAllOk with fetchOk := fun _ => false }

/-- A header-only sheet whose header lacks both required columns:
get_all_records returns no records. -/
def envHeaderOnly : Env :=
  { envAllOk with header := ["제목"], rows := [] }

/-- A sheet with one data row whose header lacks the 진행상태 column. -/
def envMissingStatus : Env :=
  { envAllOk with header := ["링크"], rows := [["A"]] }

/-- A sheet whose single data row is already 진행완료: the pending snapshot
is empty. -/
def envAllDone : Env :=
  { envAllOk with rows := [["A", "진행완료"]] }

/-- The three-row scenario of the spec: A pending, B already done, C pending,
with retrieval succeeding for A and C. -/
def envScenario : Env :=
  { envAllOk with
    rows := [["A", "미진행"], ["B", "진행완료"], ["C", "미진행"]],
    fetchOk := fun l => l == "A" || l == "C" }

/-- Two pending rows, both retrieved, where update_cell fails for the first
data-frame index and would succeed for the second. -/
def envWriteFail : Env :=
  { envAllOk with writeOk := fun i => i != 0 }

theorem download_ok_of_all (f : String → Bool) (t : String → String)
    (ls : List String) (h : ∀ l ∈ ls, f l = true) :
    download_youtube_videos f t ls = Except.ok (ls.map (artifactName t)) := by
  induction ls with
  | nil => rfl
  | cons a ls ih =>
    have ha : f a = true := h a (by simp)
    have hrest : ∀ x ∈ ls, f x = true := fun x hx => h x (by simp [hx])
    unfold download_youtube_videos
    rw [if_pos ha, ih hrest]
    simp

theorem download_error_of_mem (f : String → Bool) (t : String → String)
    (ls : List String) (l : String) (hm : l ∈ ls) (hf : f l = false) :
    ∃ e, download_youtube_videos f t ls = Except.error e := by
  induction ls with
  | nil => cases hm
  | cons a ls ih =>
    by_cases ha : f a = true
    · rcases List.mem_cons.mp hm with rfl | hm2
      · simp [hf] at ha
      · obtain ⟨e, he⟩ := ih hm2
        exact ⟨_, by unfold download_youtube_videos; rw [if_pos ha, he]⟩
    · exact ⟨_, by unfold download_youtube_videos; rw [if_neg ha]⟩

theorem download_ok_inv (f : String → Bool) (t : String → String)
    (ls arts : List String)
    (h : download_youtube_videos f t ls = Except.ok arts) :
    arts = ls.map (artifactName t) := by
  induction ls generalizing arts with
  | nil =>
    simp [download_youtube_videos] at h
    subst h
    rfl
  | cons a ls ih =>
    unfold download_youtube_videos at h
    by_cases ha : f a = true
    · rw [if_pos ha] at h
      cases hrec : download_youtube_videos f t ls with
      | ok arts2 =>
        rw [hrec] at h
        simp only [Except.ok.injEq] at h
        subst h
        simp [ih arts2 hrec]
      | error e => rw [hrec] at h; cases h
    · rw [if_neg ha] at h; cases h

theorem download_error_inv (f : String → Bool) (t : String → String)
    (ls : List String) (e : List String × String)
    (h : download_youtube_videos f t ls = Except.error e) :
    e.1 = (ls.takeWhile f).map (artifactName t) ∧ f e.2 = false := by
  induction ls generalizing e with
  | nil => cases h
  | cons a ls ih =>
    unfold download_youtube_videos at h
    by_cases ha : f a = true
    · rw [if_pos ha] at h
      cases hrec : download_youtube_videos f t ls with
      | ok arts => rw [hrec] at h; cases h
      | error e2 =>
        rw [hrec] at h
        simp only [Except.error.injEq] at h
        subst h
        obtain ⟨h1, h2⟩ := ih e2 hrec
        refine ⟨?_, h2⟩
        simp [List.takeWhile_cons, ha, h1]
    · rw [if_neg ha] at h
      simp only [Except.error.injEq] at h
      subst h
      have ha2 : f a = false := by simpa using ha
      simp [List.takeWhile_cons, ha2]

theorem commitLoop_eq (w : Nat → Bool) (ids : List Nat) :
    commitLoop w ids = (ids.takeWhile w, ids.all w) := by
  induction ids with
  | nil => rfl
  | cons i ids ih =>
    by_cases hw : w i = true
    · simp [commitLoop, hw, ih, List.takeWhile_cons, List.all_cons]
    · simp [commitLoop, hw, List.takeWhile_cons, List.all_cons,
        Bool.eq_false_iff.mpr hw]

theorem runMain_eq_runCore (env : Env) (h1 : env.sheetTab ≠ "")
    (h2 : env.connectOk = true) (h3 : env.tabOk = true) (h4 : env.rows ≠ [])
    (h5 : "링크" ∈ env.header) (h6 : "진행상태" ∈ env.header) :
    runMain env = runCore env := by
  unfold runMain
  rw [if_neg h1, if_neg (by simp [h2]), if_neg (by simp [h3]), if_neg h4,
    if_neg (by simp [h5, h6])]

theorem runCore_eq_commitPhase (env : Env) (arts : List String)
    (h7 : pendingPairs env ≠ [])
    (hdl : download_youtube_videos env.fetchOk env.title (videoLinks env)
      = Except.ok arts) :
    runCore env = commitPhase env arts := by
  unfold runCore
  rw [if_neg h7, hdl]

theorem runCore_eq_downloadError (env : Env) (e : List String × String)
    (h7 : pendingPairs env ≠ [])
    (hdl : download_youtube_videos env.fetchOk env.title (videoLinks env)
      = Except.error e) :
    runCore env = downloadErrorResult env := by
  unfold runCore
  rw [if_neg h7, hdl]

theorem commitPhase_cellsWritten (env : Env) (arts : List String) :
    (commitPhase env arts).cellsWritten
      = (pendingIndices env).takeWhile env.writeOk := by
  simp only [commitPhase, commitLoop_eq]
  split <;> rfl

theorem commitPhase_outcome (env : Env) (arts : List String) :
    (commitPhase env arts).outcome =
      if (pendingIndices env).all env.writeOk = true then Outcome.success
      else Outcome.writeError := by
  simp only [commitPhase, commitLoop_eq]
  split <;> simp_all

theorem commitPhase_zipCreated (env : Env) (arts : List String) :
    (commitPhase env arts).zipCreated = true := by
  simp only [commitPhase, commitLoop_eq]
  split <;> rfl

theorem commitPhase_zipName (env : Env) (arts : List String) :
    (commitPhase env arts).zipName
      = some ("videos_" ++ toString env.timestamp ++ ".zip") := by
  simp only [commitPhase, commitLoop_eq]
  split <;> rfl

theorem commitPhase_zipEntries (env : Env) (arts : List String) :
    (commitPhase env arts).zipEntries = some arts := by
  have h : create_zip_file (arts.map (fun a => { subdirs := [], base := a }))
      = arts := by
    simp only [create_zip_file, List.map_map]
    exact List.map_id arts
  simp only [commitPhase, commitLoop_eq]
  split <;> simp [h]

theorem commitPhase_finalRows (env : Env) (arts : List String) :
    (commitPhase env arts).finalRows
      = applyWrites ((colIdx env.header "진행상태").getD 0)
          ((pendingIndices env).takeWhile env.writeOk) env.rows := by
  simp only [commitPhase, commitLoop_eq]
  split <;> rfl

theorem commitPhase_cleanupAttempted (env : Env) (arts : List String) :
    (commitPhase env arts).cleanupAttempted
      = (pendingIndices env).all env.writeOk := by
  simp only [commitPhase, commitLoop_eq]
  split <;> simp_all

theorem videoLinks_ne_nil (env : Env) (h7 : pendingPairs env ≠ []) :
    videoLinks env ≠ [] := by
  intro hv
  unfold videoLinks at hv
  exact h7 (List.map_eq_nil_iff.mp hv)

theorem pendingPairs_ne_nil_of_mem_links (env : Env) (l : String)
    (hl : l ∈ videoLinks env) : pendingPairs env ≠ [] := by
  intro hp
  unfold videoLinks at hl
  rw [hp] at hl
  cases hl

/-- C10: for a sheet whose data read returns an empty record list, main
returns early with the no-data warning before the required-column check runs,
so such a sheet never produces a schema error even when the required columns
are missing from the header, and no retrieval, write, zip or directory
creation occurs. -/
theorem c10_empty_data_early_return (env : Env) (h1 : env.sheetTab ≠ "")
    (h2 : env.connectOk = true) (h3 : env.tabOk = true)
    (h4 : env.rows = []) :
    (runMain env).outcome = Outcome.noData ∧
    (runMain env).outcome ≠ Outcome.schemaError ∧
    (runMain env).fetchAttempts = [] ∧
    (runMain env).cellsWritten = [] ∧
    (runMain env).zipCreated = false ∧
    (runMain env).dirCreated = false ∧
    (runMain env).finalRows = env.rows := by
  have h : runMain env = earlyReturn env Outcome.noData := by
    unfold runMain
    rw [if_neg h1, if_neg (by simp [h2]), if_neg (by simp [h3]), if_pos h4]
  rw [h]
  exact ⟨rfl, by simp [earlyReturn], rfl, rfl, rfl, rfl, rfl⟩

/-- C10 witness: a header-only sheet whose header even lacks both required
columns exits with the no-data warning, not the schema error. -/
theorem c10_empty_data_early_return_witness :
    (runMain envHeaderOnly).outcome = Outcome.noData ∧
    (runMain envHeaderOnly).outcome ≠ Outcome.schemaError ∧
    (runMain envHeaderOnly).fetchAttempts = [] ∧
    (runMain envHeaderOnly).cellsWritten = [] ∧
    (runMain envHeaderOnly).zipCreated = false ∧
    (runMain envHeaderOnly).dirCreated = false ∧
    (runMain envHeaderOnly).finalRows = envHeaderOnly.rows :=
  c10_empty_data_early_return envHeaderOnly (by decide) rfl rfl rfl

/-- C7: when the pending snapshot of a well-formed sheet is empty, the run
stops at the nothing-to-do message: no retrieval is attempted, no status cell
is written, and neither the zip nor the download directory is created. -/
theorem c7_empty_pending_noop (env : Env) (h1 : env.sheetTab ≠ "")
    (h2 : env.connectOk = true) (h3 : env.tabOk = true) (h4 : env.rows ≠ [])
    (h5 : "링크" ∈ env.header) (h6 : "진행상태" ∈ env.header)
    (h7 : pendingPairs env = []) :
    (runMain env).outcome = Outcome.nothingToDo ∧
    (runMain env).dirCreated = false ∧
    (runMain env).fetchAttempts = [] ∧
    (runMain env).cellsWritten = [] ∧
    (runMain env).zipCreated = false ∧
    (runMain env).finalRows = env.rows := by
  have h : runMain env = earlyReturn env Outcome.nothingToDo := by
    rw [runMain_eq_runCore env h1 h2 h3 h4 h5 h6]
    unfold runCore
    rw [if_pos h7]
  rw [h]
  exact ⟨rfl, rfl, rfl, rfl, rfl, rfl⟩

/-- C7 witness: a sheet whose single data row is already 진행완료. -/
theorem c7_empty_pending_noop_witness :
    (runMain envAllDone).outcome = Outcome.nothingToDo ∧
    (runMain envAllDone).dirCreated = false ∧
    (runMain envAllDone).fetchAttempts = [] ∧
    (runMain envAllDone).cellsWritten = [] ∧
    (runMain envAllDone).zipCreated = false ∧
    (runMain envAllDone).finalRows = envAllDone.rows :=
  c7_empty_pending_noop envAllDone (by decide) rfl rfl (by decide)
    (by decide) (by decide) (by decide)

/-- C5 counterexample: a header-only sheet whose header lacks both required
columns exits through the empty-data warning before the column check, so the
run does not fail with the schema error even though a required column is
absent from the header. -/
theorem c5_counterexample_header_only :
    ("링크" ∉ envHeaderOnly.header ∧ "진행상태" ∉ envHeaderOnly.header) ∧
    (runMain envHeaderOnly).outcome ≠ Outcome.schemaError ∧
    (runMain envHeaderOnly).outcome = Outcome.noData := by decide

/-- C5 as amended: for every sheet with at least one data record whose header
lacks the 링크 column or the 진행상태 column, the run fails with the schema
error and stops before any retrieval is attempted and before any status cell
is written. -/
theorem c5_amended_schema_error (env : Env) (h1 : env.sheetTab ≠ "")
    (h2 : env.connectOk = true) (h3 : env.tabOk = true) (h4 : env.rows ≠ [])
    (h5 : "링크" ∉ env.header ∨ "진행상태" ∉ env.header) :
    (runMain env).outcome = Outcome.schemaError ∧
    (runMain env).fetchAttempts = [] ∧
    (runMain env).cellsWritten = [] ∧
    (runMain env).zipCreated = false ∧
    (runMain env).dirCreated = false ∧
    (runMain env).finalRows = env.rows := by
  have h : runMain env = earlyReturn env Outcome.schemaError := by
    unfold runMain
    rw [if_neg h1, if_neg (by simp [h2]), if_neg (by simp [h3]), if_neg h4,
      if_pos h5]
  rw [h]
  exact ⟨rfl, rfl, rfl, rfl, rfl, rfl⟩

/-- C5 witness: one data row, header lacking the 진행상태 column. -/
theorem c5_amended_schema_error_witness :
    (runMain envMissingStatus).outcome = Outcome.schemaError ∧
    (runMain envMissingStatus).fetchAttempts = [] ∧
    (runMain envMissingStatus).cellsWritten = [] ∧
    (runMain envMissingStatus).zipCreated = false ∧
    (runMain envMissingStatus).dirCreated = false ∧
    (runMain envMissingStatus).finalRows = envMissingStatus.rows :=
  c5_amended_schema_error envMissingStatus (by decide) rfl rfl (by decide)
    (by decide)

/-- C3: when every pending link fails to download, the run exits through the
download-error path: no zip file is created, no status cell is written, and
the sheet is left exactly as read at the snapshot. -/
theorem c3_total_failure (env : Env) (h1 : env.sheetTab ≠ "")
    (h2 : env.connectOk = true) (h3 : env.tabOk = true) (h4 : env.rows ≠ [])
    (h5 : "링크" ∈ env.header) (h6 : "진행상태" ∈ env.header)
    (h7 : pendingPairs env ≠ [])
    (h8 : ∀ l ∈ videoLinks env, env.fetchOk l = false) :
    (runMain env).outcome = Outcome.downloadError ∧
    (runMain env).zipCreated = false ∧
    (runMain env).cellsWritten = [] ∧
    (runMain env).finalRows = env.rows := by
  obtain ⟨l, hl⟩ := List.exists_mem_of_ne_nil _ (videoLinks_ne_nil env h7)
  obtain ⟨e, he⟩ :=
    download_error_of_mem env.fetchOk env.title (videoLinks env) l hl (h8 l hl)
  have h : runMain env = downloadErrorResult env := by
    rw [runMain_eq_runCore env h1 h2 h3 h4 h5 h6,
      runCore_eq_downloadError env e h7 he]
  rw [h]
  exact ⟨rfl, rfl, rfl, rfl⟩

/-- C3 witness: two pending rows, both downloads failing. -/
theorem c3_total_failure_witness :
    (runMain envAllFail).outcome = Outcome.downloadError ∧
    (runMain envAllFail).zipCreated = false ∧
    (runMain envAllFail).cellsWritten = [] ∧
    (runMain envAllFail).finalRows = envAllFail.rows :=
  c3_total_failure envAllFail (by decide) rfl rfl (by decide) (by decide)
    (by decide) (by decide) (by decide)

/-- C2 counterexample: two pending rows where exactly one retrieval fails
(the first) and the other would succeed. Contrary to the claim, the failing
item is not skipped: the run aborts at it, the second link is never even
attempted, no archive is produced, and zero rows transition to 진행완료. -/
theorem c2_counterexample_first_failure :
    pendingIndices envFirstFails = [0, 1] ∧
    videoLinks envFirstFails = ["A", "B"] ∧
    envFirstFails.fetchOk "A" = false ∧
    envFirstFails.fetchOk "B" = true ∧
    (runMain envFirstFails).outcome = Outcome.downloadError ∧
    (runMain envFirstFails).zipCreated = false ∧
    (runMain envFirstFails).cellsWritten = [] ∧
    (runMain envFirstFails).fetchAttempts = ["A"] := by decide

/-- C2 as amended: a run in which any pending link fails to download aborts
with the download error at the first failing item: no archive is produced, no
status cell is written, and the sheet is unchanged; later items are not
retried or skipped past. -/
theorem c2_amended_any_failure_aborts (env : Env) (h1 : env.sheetTab ≠ "")
    (h2 : env.connectOk = true) (h3 : env.tabOk = true) (h4 : env.rows ≠ [])
    (h5 : "링크" ∈ env.header) (h6 : "진행상태" ∈ env.header)
    (hex : ∃ l ∈ videoLinks env, env.fetchOk l = false) :
    (runMain env).outcome = Outcome.downloadError ∧
    (runMain env).zipCreated = false ∧
    (runMain env).cellsWritten = [] ∧
    (runMain env).finalRows = env.rows := by
  obtain ⟨l, hl, hf⟩ := hex
  have h7 := pendingPairs_ne_nil_of_mem_links env l hl
  obtain ⟨e, he⟩ :=
    download_error_of_mem env.fetchOk env.title (videoLinks env) l hl hf
  have h : runMain env = downloadErrorResult env := by
    rw [runMain_eq_runCore env h1 h2 h3 h4 h5 h6,
      runCore_eq_downloadError env e h7 he]
  rw [h]
  exact ⟨rfl, rfl, rfl, rfl⟩

/-- C2 amended witness: first of two pending links fails. -/
theorem c2_amended_any_failure_aborts_witness :
    (runMain envFirstFails).outcome = Outcome.downloadError ∧
    (runMain envFirstFails).zipCreated = false ∧
    (runMain envFirstFails).cellsWritten = [] ∧
    (runMain envFirstFails).finalRows = envFirstFails.rows :=
  c2_amended_any_failure_aborts envFirstFails (by decide) rfl rfl (by decide)
    (by decide) (by decide) ⟨"A", by decide, by decide⟩

/-- C1 counterexample: two pending rows where the first link downloads
successfully and the second fails. The retrieval of the first item succeeded
in this run (its artifact is on disk), yet no status cell is written: the set
marked 진행완료 is a proper subset of the set whose retrieval succeeded, so
the two sets are not always equal. -/
theorem c1_counterexample_partial_run :
    succeededIndices envMixed = [0] ∧
    (runMain envMixed).cellsWritten = [] ∧
    (runMain envMixed).cellsWritten ≠ succeededIndices envMixed ∧
    (runMain envMixed).finalRows = [["A", "미진행"], ["B", "미진행"]] := by
  decide

/-- C1 as amended: when every retrieval and every status write succeeds, the
set of rows written 진행완료 is exactly the pending snapshot, which is also
exactly the set whose retrieval succeeded; but when any retrieval fails the
whole run aborts and no row at all is written 진행완료, even the rows whose
retrieval succeeded before the failure, which stay 미진행. -/
theorem c1_amended_done_set (env : Env) (h1 : env.sheetTab ≠ "")
    (h2 : env.connectOk = true) (h3 : env.tabOk = true) (h4 : env.rows ≠ [])
    (h5 : "링크" ∈ env.header) (h6 : "진행상태" ∈ env.header) :
    ((∀ l ∈ videoLinks env, env.fetchOk l = true) →
      (∀ i, env.writeOk i = true) →
      (runMain env).cellsWritten = succeededIndices env ∧
      succeededIndices env = pendingIndices env) ∧
    ((∃ l ∈ videoLinks env, env.fetchOk l = false) →
      (runMain env).cellsWritten = []) := by
  constructor
  · intro hf hw
    have hpall : ∀ p ∈ pendingPairs env,
        env.fetchOk (cellValue env.header p.2 "링크") = true := by
      intro p hp
      exact hf _ (by unfold videoLinks; exact List.mem_map_of_mem _ hp)
    have hsucc : succeededIndices env = pendingIndices env := by
      unfold succeededIndices pendingIndices
      rw [List.takeWhile_eq_self_iff.mpr hpall]
    refine ⟨?_, hsucc⟩
    by_cases hp : pendingPairs env = []
    · have h : runMain env = earlyReturn env Outcome.nothingToDo := by
        rw [runMain_eq_runCore env h1 h2 h3 h4 h5 h6]
        unfold runCore
        rw [if_pos hp]
      rw [h, hsucc]
      unfold pendingIndices
      rw [hp]
      rfl
    · have hdl := download_ok_of_all env.fetchOk env.title (videoLinks env) hf
      have h : runMain env
          = commitPhase env ((videoLinks env).map (artifactName env.title)) := by
        rw [runMain_eq_runCore env h1 h2 h3 h4 h5 h6,
          runCore_eq_commitPhase env _ hp hdl]
      rw [h, commitPhase_cellsWritten, hsucc]
      unfold pendingIndices
      exact List.takeWhile_eq_self_iff.mpr (fun i _ => hw i)
  · intro hex
    obtain ⟨l, hl, hfl⟩ := hex
    have h7 := pendingPairs_ne_nil_of_mem_links env l hl
    obtain ⟨e, he⟩ :=
      download_error_of_mem env.fetchOk env.title (videoLinks env) l hl hfl
    have h : runMain env = downloadErrorResult env := by
      rw [runMain_eq_runCore env h1 h2 h3 h4 h5 h6,
        runCore_eq_downloadError env e h7 he]
    rw [h]
    rfl

/-- C1 witness: two pending rows, every download and every write succeeding:
the written set equals the succeeded set equals the whole snapshot. -/
theorem c1_amended_done_set_witness :
    (runMain envAllOk).cellsWritten = succeededIndices envAllOk ∧
    succeededIndices envAllOk = pendingIndices envAllOk :=
  (c1_amended_done_set envAllOk (by decide) rfl rfl (by decide) (by decide)
    (by decide)).1 (by decide) (fun _ => rfl)

/-- C6: the three-row scenario. Rows are A pending, B already done, C
pending; retrieval succeeds for A and C. The zip holds exactly the two
artifacts, the write-back targets data-frame indices 0 and 2, which are sheet
rows 2 and 4 under the plus-two addressing, data row B (index 1) is never
written, and the final sheet shows A and C switched to 진행완료 with B
exactly as it was. -/
theorem c6_scenario_rows :
    pendingIndices envScenario = [0, 2] ∧
    (runMain envScenario).outcome = Outcome.success ∧
    (runMain envScenario).zipEntries = some ["A.mp4", "C.mp4"] ∧
    (runMain envScenario).cellsWritten = [0, 2] ∧
    (runMain envScenario).cellsWritten.map (fun i => i + 2) = [2, 4] ∧
    (1 : Nat) ∉ (runMain envScenario).cellsWritten ∧
    (runMain envScenario).finalRows
      = [["A", "진행완료"], ["B", "진행완료"], ["C", "진행완료"]] := by
  decide

/-- C8: every run that reaches the archive step (all pending downloads
succeeded) produces a zip whose entries are exactly the artifacts of this
run, one flat base-filename entry per retrieved link in order, and whose
filename is determined by the timestamp run identifier. -/
theorem c8_archive_contents (env : Env) (arts : List String)
    (h1 : env.sheetTab ≠ "") (h2 : env.connectOk = true)
    (h3 : env.tabOk = true) (h4 : env.rows ≠ [])
    (h5 : "링크" ∈ env.header) (h6 : "진행상태" ∈ env.header)
    (h7 : pendingPairs env ≠ [])
    (hdl : download_youtube_videos env.fetchOk env.title (videoLinks env)
      = Except.ok arts) :
    (runMain env).zipCreated = true ∧
    (runMain env).zipEntries
      = some ((videoLinks env).map (artifactName env.title)) ∧
    (runMain env).zipName
      = some ("videos_" ++ toString env.timestamp ++ ".zip") := by
  have h : runMain env = commitPhase env arts := by
    rw [runMain_eq_runCore env h1 h2 h3 h4 h5 h6,
      runCore_eq_commitPhase env arts h7 hdl]
  have harts := download_ok_inv env.fetchOk env.title (videoLinks env) arts hdl
  rw [h]
  exact ⟨commitPhase_zipCreated env arts,
    by rw [commitPhase_zipEntries, harts], commitPhase_zipName env arts⟩

/-- C8 witness: two pending links, both downloaded, zip videos_5.zip with the
two flat mp4 entries. -/
theorem c8_archive_contents_witness :
    (runMain envAllOk).zipCreated = true ∧
    (runMain envAllOk).zipEntries
      = some ((videoLinks envAllOk).map (artifactName envAllOk.title)) ∧
    (runMain envAllOk).zipName
      = some ("videos_" ++ toString envAllOk.timestamp ++ ".zip") :=
  c8_archive_contents envAllOk ["A.mp4", "B.mp4"] (by decide) rfl rfl
    (by decide) (by decide) (by decide) (by decide) (by rfl)

/-- C9 counterexample: two pending rows, both retrieved into the zip, where
update_cell fails for the first data-frame index and would succeed for the
second. Contrary to the claim, the failure aborts the remaining write-backs:
the second retrieved item is not written 진행완료 either, and both rows stay
미진행. -/
theorem c9_counterexample_write_abort :
    pendingIndices envWriteFail = [0, 1] ∧
    envWriteFail.writeOk 0 = false ∧
    envWriteFail.writeOk 1 = true ∧
    (runMain envWriteFail).zipEntries = some ["A.mp4", "B.mp4"] ∧
    (runMain envWriteFail).outcome = Outcome.writeError ∧
    (runMain envWriteFail).cellsWritten = [] ∧
    (runMain envWriteFail).finalRows = [["A", "미진행"], ["B", "미진행"]] := by
  decide

/-- C9 as amended: in the commit phase the write-back loop has no exception
handling, so the rows written 진행완료 are exactly the longest prefix of the
pending indices on which update_cell succeeds; the first write failure
escapes as an uncaught exception, leaving the failing item and every later
retrieved item 미진행. -/
theorem c9_amended_write_abort (env : Env) (arts : List String)
    (h1 : env.sheetTab ≠ "") (h2 : env.connectOk = true)
    (h3 : env.tabOk = true) (h4 : env.rows ≠ [])
    (h5 : "링크" ∈ env.header) (h6 : "진행상태" ∈ env.header)
    (h7 : pendingPairs env ≠ [])
    (hdl : download_youtube_videos env.fetchOk env.title (videoLinks env)
      = Except.ok arts) :
    (runMain env).cellsWritten
      = (pendingIndices env).takeWhile env.writeOk ∧
    ((pendingIndices env).all env.writeOk = false →
      (runMain env).outcome = Outcome.writeError) ∧
    (runMain env).finalRows
      = applyWrites ((colIdx env.header "진행상태").getD 0)
          ((pendingIndices env).takeWhile env.writeOk) env.rows := by
  have h : runMain env = commitPhase env arts := by
    rw [runMain_eq_runCore env h1 h2 h3 h4 h5 h6,
      runCore_eq_commitPhase env arts h7 hdl]
  rw [h]
  refine ⟨commitPhase_cellsWritten env arts, ?_, commitPhase_finalRows env arts⟩
  intro hall
  rw [commitPhase_outcome, if_neg (by simp [hall])]

/-- C9 witness: write failure at the first pending index leaves the written
prefix empty and ends the run in the uncaught write error. -/
theorem c9_amended_write_abort_witness :
    (runMain envWriteFail).cellsWritten = [] ∧
    (runMain envWriteFail).outcome = Outcome.writeError :=
  ⟨((c9_amended_write_abort envWriteFail ["A.mp4", "B.mp4"] (by decide) rfl
      rfl (by decide) (by decide) (by decide) (by decide) (by rfl)).1).trans
    (by decide),
   ((c9_amended_write_abort envWriteFail ["A.mp4", "B.mp4"] (by decide) rfl
      rfl (by decide) (by decide) (by decide) (by decide) (by rfl)).2.1)
    (by decide)⟩

/-- C4 counterexample: a run that fails during download after the download
directory was created at line 109. The cleanup block of lines 150 to 157 is
never reached on this exit path, so the run-scoped local artifacts are not
removed. -/
theorem c4_counterexample_no_cleanup_on_failure :
    (runMain envFirstFails).outcome = Outcome.downloadError ∧
    (runMain envFirstFails).dirCreated = true ∧
    (runMain envFirstFails).cleanupAttempted = false ∧
    (runMain envFirstFails).localFilesRemoved = false := by
  decide

/-- C4 as amended: the cleanup block runs exactly on the full-success exit
path and on no other exit; on the success path it sits inside a blanket
except-pass, so whether the file removals succeed or fail never changes the
outcome, the written cells, or the final sheet of the run. -/
theorem runMain_cleanupOk_irrel (s : String) (c t : Bool) (hd : List String)
    (rs : List (List String)) (f : String → Bool) (ti : String → String)
    (w : Nat → Bool) (cl b : Bool) (ts : Nat) :
    (runMain (Env.mk s c t hd rs f ti w b ts)).outcome
      = (runMain (Env.mk s c t hd rs f ti w cl ts)).outcome ∧
    (runMain (Env.mk s c t hd rs f ti w b ts)).cellsWritten
      = (runMain (Env.mk s c t hd rs f ti w cl ts)).cellsWritten ∧
    (runMain (Env.mk s c t hd rs f ti w b ts)).finalRows
      = (runMain (Env.mk s c t hd rs f ti w cl ts)).finalRows := by
  have hpp : pendingPairs (Env.mk s c t hd rs f ti w b ts)
      = pendingPairs (Env.mk s c t hd rs f ti w cl ts) := rfl
  have hvl : videoLinks (Env.mk s c t hd rs f ti w b ts)
      = videoLinks (Env.mk s c t hd rs f ti w cl ts) := rfl
  refine ⟨?_, ?_, ?_⟩ <;>
  · unfold runMain runCore
    dsimp only
    rw [hpp, hvl]
    repeat' split
    any_goals rfl
    first
      | rw [commitPhase_outcome, commitPhase_outcome]
      | rw [commitPhase_cellsWritten, commitPhase_cellsWritten]
      | rw [commitPhase_finalRows, commitPhase_finalRows]
    rfl

theorem cleanupAttempted_iff_success (env : Env) :
    (runMain env).cleanupAttempted = true ↔
      (runMain env).outcome = Outcome.success := by
  unfold runMain runCore
  repeat' split
  any_goals simp [earlyReturn]
  any_goals simp [downloadErrorResult]
  rw [commitPhase_cleanupAttempted, commitPhase_outcome]
  split <;> simp_all

theorem c4_amended_cleanup_success_only (env : Env) :
    ((runMain env).cleanupAttempted = true ↔
      (runMain env).outcome = Outcome.success) ∧
    (∀ b : Bool,
      (runMain { env with cleanupOk := b }).outcome = (runMain env).outcome) ∧
    (∀ b : Bool,
      (runMain { env with cleanupOk := b }).cellsWritten
        = (runMain env).cellsWritten) ∧
    (∀ b : Bool,
      (runMain { env with cleanupOk := b }).finalRows
        = (runMain env).finalRows) := by
  obtain ⟨s, c, t, hd, rs, f, ti, w, cl, ts⟩ := env
  exact ⟨cleanupAttempted_iff_success (Env.mk s c t hd rs f ti w cl ts),
    fun b => (runMain_cleanupOk_irrel s c t hd rs f ti w cl b ts).1,
    fun b => (runMain_cleanupOk_irrel s c t hd rs f ti w cl b ts).2.1,
    fun b => (runMain_cleanupOk_irrel s c t hd rs f ti w cl b ts).2.2⟩

/-- C4 witness: on a fully successful concrete run the cleanup block runs,
and flipping the cleanup oracle to failing leaves the outcome untouched. -/
theorem c4_amended_cleanup_success_only_witness :
    ((runMain envAllOk).cleanupAttempted = true ↔
      (runMain envAllOk).outcome = Outcome.success) ∧
    (runMain { envAllOk with cleanupOk := false }).outcome
      = (runMain envAllOk).outcome :=
  ⟨(c4_amended_cleanup_success_only envAllOk).1,
    (c4_amended_cleanup_success_only envAllOk).2.1 false⟩

end ContentsDownload
